import Mathlib

/-!
Shallow embedding of the PR Statement Generator backend
(src/services/pr_generator.py, src/models.py, src/main.py).

The generate/evaluate loop built with LangGraph in `build_workflow` is
modelled as a fuel-indexed recursive function `runWorkflow`: each
iteration runs `generate_pr_statement_node` then
`evaluate_pr_statement_node` and branches on `route_statement`, exactly
as the graph edges `START → Generate_PR_Statement →
Evaluate_PR_Statement → (END | Generate_PR_Statement)` prescribe.
Running out of fuel returns `none`, representing a run of the Python
loop that has not yet terminated (the source has no iteration cap).

The two LLM handles (`_llm`, `_evaluator`) are modelled as oracles:
functions from the call index and the prompt string to either a result
or an error.  Python exceptions are modelled with `Except Err`; the
error taxonomy follows the code (provider failures and the
RuntimeError/ValueError configuration failures).
-/

/-- Errors the service can raise: provider-side failures (network, auth,
quota, structured-output schema violation) and configuration failures
(missing credential, uninitialized handles — `ValueError`/`RuntimeError`
in the Python source). -/
inductive Err where
  | providerError (msg : String)
  | configurationError (msg : String)
deriving DecidableEq

/-- `models.State`: the TypedDict threaded through the workflow, with
fields `pr_statement`, `topic`, `grade`, `feedback`. -/
structure State where
  pr_statement : String
  topic : String
  grade : String
  feedback : String
deriving DecidableEq

/-- `models.Feedback`: the structured-output schema of the evaluator,
`grade` (declared `Literal["good", "needs improvement"]`) and
`feedback`.  Here `grade` is a plain string; `validGrade` captures the
`Literal` constraint. -/
structure Feedback where
  grade : String
  feedback : String
deriving DecidableEq

/-- The `Literal["good", "needs improvement"]` constraint on
`Feedback.grade` declared in src/models.py. -/
def validGrade (g : String) : Bool :=
  g = "good" || g = "needs improvement"

/-- A LangGraph node's return value: the partial state-update dict.
A key absent from the dict is `none`; LangGraph merges present keys
into the state, overwriting the previous value. -/
structure StateUpdate where
  pr_statement : Option String := none
  topic : Option String := none
  grade : Option String := none
  feedback : Option String := none
deriving DecidableEq

/-- LangGraph's merge of a node's partial update into the state:
every key present in the update overwrites the stored value, every
absent key is kept. -/
def applyUpdate (st : State) (u : StateUpdate) : State :=
  { pr_statement := u.pr_statement.getD st.pr_statement
    topic := u.topic.getD st.topic
    grade := u.grade.getD st.grade
    feedback := u.feedback.getD st.feedback }

/-- An LLM invocation handle (`_llm`): the oracle maps the call index
and the prompt to generated text or a provider error. -/
abbrev LLM := Nat → String → Except Err String

/-- An evaluator invocation handle (`_evaluator`): maps the call index
and the prompt to a `Feedback` value or a provider error. -/
abbrev EvalHandle := Nat → String → Except Err Feedback

/-- Modelled from the spec: `_llm.with_structured_output(Feedback)` is
library code (langchain/pydantic), not in src/.  Per the spec's §4.1
the provider must return a `grade` that is one of the two enumerated
literals declared by `models.Feedback`; any other value is a
`ProviderError` (schema violation).  The wrapper therefore validates
the raw provider output against `validGrade`. -/
def with_structured_output (raw : EvalHandle) : EvalHandle :=
  fun n prompt =>
    match raw n prompt with
    | .error e => .error e
    | .ok fb =>
        if validGrade fb.grade then .ok fb
        else .error (.providerError "structured output does not conform to Feedback schema")

/-- The generation prompt built from the topic in
`generate_pr_statement_node` (the f-string at lines 91–95). -/
def mkGenPrompt (topic : String) : String :=
  "\n        Generate a compelling PR statement for the topic " ++ topic ++
  ".\n\n        - The statement should highlight key benefits, address any potential concerns, and capture the excitement and innovation surrounding the subject.\n        - Ensure that the tone is professional yet engaging, appealing to the target audience while maintaining clarity and impact."

/-- The full prompt passed to `_llm.invoke`: when `state.get(\"feedback\")`
is truthy (a non-empty string) the feedback instruction is appended. -/
def fullGenPrompt (st : State) : String :=
  if st.feedback = "" then mkGenPrompt st.topic
  else mkGenPrompt st.topic ++ " Also take provided feedback into account: " ++ st.feedback

/-- The evaluation prompt built from the current statement in
`evaluate_pr_statement_node` (the f-string at lines 117–122). -/
def mkEvalPrompt (stmt : String) : String :=
  "\n        Review the following PR statement: " ++ stmt ++
  ".\n\n        - Assess its clarity, engagement, and overall effectiveness in capturing the key benefits and addressing potential concerns.\n        - Decide whether the statement is well-formed (good) or if it requires further refinement (needs improvement).\n        - If it needs improvement, please provide concise and actionable feedback on how to enhance the statement."

/-- `generate_pr_statement_node`: raises RuntimeError (a configuration
failure) when `_llm` is `None`; otherwise invokes `_llm` on the prompt
(with the feedback instruction appended when feedback is non-empty) and
returns the update dict with key `pr_statement`.  Any exception from the
invoke is re-raised. -/
def generate_pr_statement_node (llm? : Option LLM) (n : Nat) (st : State) :
    Except Err StateUpdate :=
  match llm? with
  | none => .error (.configurationError "LLM not initialized. Call initialize_llm() first.")
  | some llm =>
      match llm n (fullGenPrompt st) with
      | .error e => .error e
      | .ok content => .ok { pr_statement := some content }

/-- `evaluate_pr_statement_node`: raises RuntimeError when `_evaluator`
is `None`; otherwise invokes the evaluator on the evaluation prompt and
returns the update dict with keys `grade` and `feedback`.  Any exception
from the invoke is re-raised. -/
def evaluate_pr_statement_node (ev? : Option EvalHandle) (n : Nat) (st : State) :
    Except Err StateUpdate :=
  match ev? with
  | none => .error (.configurationError "Evaluator not initialized. Call initialize_llm() first.")
  | some ev =>
      match ev n (mkEvalPrompt st.pr_statement) with
      | .error e => .error e
      | .ok decision => .ok { grade := some decision.grade, feedback := some decision.feedback }

/-- `route_statement`: `"Accepted"` when the grade equals `"good"`,
otherwise `"Rejected + Feedback"`. -/
def route_statement (st : State) : String :=
  if st.grade = "good" then "Accepted" else "Rejected + Feedback"

/-- One run of the compiled workflow graph (`build_workflow`):
generate, then evaluate, then route back to generation unless accepted.
`genCalls`/`evalCalls` count completed iterations and index the oracles.
`none` means the fuel ran out — the Python loop, which has no iteration
cap, is still running.  On success the final state and the two call
counts are returned; a node's exception aborts the whole run. -/
def runWorkflow (llm? : Option LLM) (ev? : Option EvalHandle) :
    Nat → Nat → Nat → State → Option (Except Err (State × Nat × Nat))
  | 0, _, _, _ => none
  | fuel + 1, genCalls, evalCalls, st =>
      match generate_pr_statement_node llm? genCalls st with
      | .error e => some (.error e)
      | .ok u =>
          let st1 := applyUpdate st u
          match evaluate_pr_statement_node ev? evalCalls st1 with
          | .error e => some (.error e)
          | .ok u2 =>
              let st2 := applyUpdate st1 u2
              if route_statement st2 = "Accepted" then
                some (.ok (st2, genCalls + 1, evalCalls + 1))
              else
                runWorkflow llm? ev? fuel (genCalls + 1) (evalCalls + 1) st2

/-- The initial state of one loop run: `_workflow_graph.ainvoke` is
called with only the topic; the remaining keys are absent, which the
nodes observe exactly as they observe empty strings. -/
def initialState (topic : String) : State :=
  { pr_statement := "", topic := topic, grade := "", feedback := "" }

/-- The fallback text built in `generate_pr_statement`'s exception
handler (lines 176–179), embedding the topic. -/
def fallback_statement (topic : String) : String :=
  "FOR IMMEDIATE RELEASE\n\n        [Company Name] Announces Exciting Development in " ++
  topic ++ "\n        ..."

/-- The module-level handle configuration: the globals `_llm`,
`_evaluator` and whether `_workflow_graph` has been built. -/
structure Config where
  llm : Option LLM
  evaluator : Option EvalHandle
  workflow_initialized : Bool

/-- `generate_pr_statement(topic)` — the core entry point (`runLoop`).
Inside one big `try`: raise RuntimeError when the workflow is not
initialized, otherwise run the workflow and return its `pr_statement`;
`except Exception` catches every failure and returns the fallback text.
`none` models the non-terminating run (fuel exhausted). -/
def generate_pr_statement (cfg : Config) (fuel : Nat) (topic : String) : Option String :=
  if cfg.workflow_initialized then
    match runWorkflow cfg.llm cfg.evaluator fuel 0 0 (initialState topic) with
    | none => none
    | some (.ok (st, _, _)) => some st.pr_statement
    | some (.error _) => some (fallback_statement topic)
  else
    some (fallback_statement topic)

/-- `initialize_llm`: reads `GROQ_API_KEY` from the environment; `None`
or the empty string is falsy in Python, so both raise ValueError (the
configuration failure).  Building the two handles has no other failure
mode in the model. -/
def initialize_llm (groq_api_key : Option String) : Except Err Unit :=
  if groq_api_key.getD "" = "" then
    .error (.configurationError "GROQ_API_KEY not found in environment variables")
  else
    .ok ()

/-- `initialize_pr_generator`: `initialize_llm` then `build_workflow`;
the latter only assembles the static graph and cannot fail in the
model. -/
def initialize_pr_generator (groq_api_key : Option String) : Except Err Unit :=
  match initialize_llm groq_api_key with
  | .error e => .error e
  | .ok _ => .ok ()

/-- The FastAPI `lifespan` startup (src/main.py lines 26–39): call
`initialize_pr_generator`; on failure the exception is re-raised and
startup aborts, on success `_pr_generator_initialized` is set. -/
def lifespan_startup (groq_api_key : Option String) : Except Err Bool :=
  match initialize_pr_generator groq_api_key with
  | .error e => .error e
  | .ok _ => .ok true

/-- Whether the process reached the serving phase: requests are only
served after `lifespan` startup succeeded. -/
def serves_requests (groq_api_key : Option String) : Bool :=
  match lifespan_startup groq_api_key with
  | .ok b => b
  | .error _ => false

/-- Test oracle: a generator that always answers `"Statement A"`. -/
def okGen : LLM := fun _ _ => .ok "Statement A"

/-- Test oracle: an evaluator that always accepts with empty feedback. -/
def okEval : EvalHandle := fun _ _ => .ok { grade := "good", feedback := "" }

/-- Test oracle: a generator that always answers the empty string. -/
def emptyGen : LLM := fun _ _ => .ok ""

/-- Test oracle: a generator whose provider call always fails. -/
def errGen : LLM := fun _ _ => .error (.providerError "network failure")

/-- Test oracle: an evaluator that asks for one improvement and then
accepts. -/
def improveThenGood : EvalHandle := fun n _ =>
  if n = 0 then .ok { grade := "needs improvement", feedback := "add benefits" }
  else .ok { grade := "good", feedback := "" }

/-- Test oracle: a raw evaluator whose grade violates the `Feedback`
schema. -/
def badGradeRaw : EvalHandle := fun _ _ => .ok { grade := "excellent", feedback := "nice" }

/-- Test oracle: an evaluator that always returns fresh feedback,
overwriting whatever was stored. -/
def overwriteEval : EvalHandle := fun _ _ => .ok { grade := "needs improvement", feedback := "new" }

/-- A successful generation node call only writes the `pr_statement`
key: the `topic` key is absent from its update dict, so the merge keeps
the stored topic. -/
theorem gen_node_update (llm? : Option LLM) (n : Nat) (st : State) (u : StateUpdate)
    (h : generate_pr_statement_node llm? n st = .ok u) :
    u.topic = none ∧ (applyUpdate st u).topic = st.topic := by
  cases llm? with
  | none => simp [generate_pr_statement_node] at h
  | some llm =>
      cases hl : llm n (fullGenPrompt st) with
      | error e => simp [generate_pr_statement_node, hl] at h
      | ok c =>
          simp [generate_pr_statement_node, hl] at h
          subst h
          exact ⟨rfl, rfl⟩

/-- A successful evaluation node call only writes the `grade` and
`feedback` keys: the `topic` key is absent from its update dict, so the
merge keeps the stored topic. -/
theorem eval_node_update (ev? : Option EvalHandle) (n : Nat) (st : State) (u : StateUpdate)
    (h : evaluate_pr_statement_node ev? n st = .ok u) :
    u.topic = none ∧ (applyUpdate st u).topic = st.topic := by
  cases ev? with
  | none => simp [evaluate_pr_statement_node] at h
  | some ev =>
      cases hl : ev n (mkEvalPrompt st.pr_statement) with
      | error e => simp [evaluate_pr_statement_node, hl] at h
      | ok d =>
          simp [evaluate_pr_statement_node, hl] at h
          subst h
          exact ⟨rfl, rfl⟩

/-- Across any number of loop iterations, a workflow run that ends in
acceptance keeps the topic of the state it started from. -/
theorem runWorkflow_topic (llm? : Option LLM) (ev? : Option EvalHandle) :
    ∀ fuel gc ec st fin g e,
      runWorkflow llm? ev? fuel gc ec st = some (.ok (fin, g, e)) → fin.topic = st.topic := by
  intro fuel
  induction fuel with
  | zero =>
      intro gc ec st fin g e h
      simp [runWorkflow] at h
  | succ f ih =>
      intro gc ec st fin g e h
      simp only [runWorkflow] at h
      cases hg : generate_pr_statement_node llm? gc st with
      | error e2 => simp [hg] at h
      | ok u =>
          cases he : evaluate_pr_statement_node ev? ec (applyUpdate st u) with
          | error e2 => simp [hg, he] at h
          | ok u2 =>
              simp only [hg, he] at h
              by_cases hr : route_statement (applyUpdate (applyUpdate st u) u2) = "Accepted"
              · simp only [hr, if_pos] at h
                have h2 := Option.some.inj h
                have h3 := Except.ok.inj h2
                have h4 : applyUpdate (applyUpdate st u) u2 = fin := congrArg Prod.fst h3
                rw [← h4]
                rw [(eval_node_update ev? ec (applyUpdate st u) u2 he).2]
                exact (gen_node_update llm? gc st u hg).2
              · simp only [hr, if_neg, if_false] at h
                have h5 := ih (gc + 1) (ec + 1) (applyUpdate (applyUpdate st u) u2) fin g e h
                rw [h5]
                rw [(eval_node_update ev? ec (applyUpdate st u) u2 he).2]
                exact (gen_node_update llm? gc st u hg).2

/-- The fallback text always contains at least its fixed leading
boilerplate, so it is never the empty string. -/
theorem fallback_statement_ne_empty (topic : String) : fallback_statement topic ≠ "" := by
  intro h
  have h2 := congrArg String.length h
  rw [show fallback_statement topic
      = "FOR IMMEDIATE RELEASE\n\n        [Company Name] Announces Exciting Development in "
        ++ topic ++ "\n        ..." from rfl] at h2
  rw [String.length_append, String.length_append] at h2
  have h3 : ("FOR IMMEDIATE RELEASE\n\n        [Company Name] Announces Exciting Development in " : String).length ≠ 0 := by
    decide
  have h4 : ("" : String).length = 0 := rfl
  rw [h4] at h2
  omega

/-- C1 (counterexample): with a generator whose very first provider
call fails, the workflow run does abort with that error, but
`generate_pr_statement` returns the fallback string to its caller — the
error is not propagated, contradicting the claim that `runLoop` raises. -/
theorem c1_counterexample :
    runWorkflow (some errGen) (some okEval) 1 0 0 (initialState "T")
        = some (.error (.providerError "network failure"))
    ∧ generate_pr_statement
        { llm := some errGen, evaluator := some okEval, workflow_initialized := true } 1 "T"
        = some (fallback_statement "T")
    ∧ fallback_statement "T" ≠ "" := by
  refine ⟨rfl, rfl, by decide⟩

/-- C1 (amended): if `generate` raises on the first call, the workflow
run aborts immediately with that error — for every evaluator handle and
every remaining fuel, so `evaluate` is never invoked — and
`generate_pr_statement` catches the error and returns the fallback
string instead of propagating it. -/
theorem c1_gen_error_aborts_loop_caught (llm : LLM) (ev ev2 : EvalHandle)
    (topic : String) (err : Err) (f f2 : Nat)
    (hgen : llm 0 (mkGenPrompt topic) = .error err) :
    runWorkflow (some llm) (some ev) (f + 1) 0 0 (initialState topic) = some (.error err)
    ∧ runWorkflow (some llm) (some ev) (f + 1) 0 0 (initialState topic)
        = runWorkflow (some llm) (some ev2) (f2 + 1) 0 0 (initialState topic)
    ∧ generate_pr_statement
        { llm := some llm, evaluator := some ev, workflow_initialized := true } (f + 1) topic
        = some (fallback_statement topic) := by
  have h1 : ∀ (e3 : EvalHandle) (f3 : Nat),
      runWorkflow (some llm) (some e3) (f3 + 1) 0 0 (initialState topic) = some (.error err) := by
    intro e3 f3
    simp [runWorkflow, generate_pr_statement_node, fullGenPrompt, initialState, hgen]
  refine ⟨h1 ev f, (h1 ev f).trans (h1 ev2 f2).symm, ?_⟩
  simp [generate_pr_statement, h1 ev f]

/-- C1 (witness): the amended theorem at the failing generator. -/
theorem c1_witness :
    runWorkflow (some errGen) (some okEval) 1 0 0 (initialState "T")
        = some (.error (.providerError "network failure"))
    ∧ runWorkflow (some errGen) (some okEval) 1 0 0 (initialState "T")
        = runWorkflow (some errGen) (some improveThenGood) 3 0 0 (initialState "T")
    ∧ generate_pr_statement
        { llm := some errGen, evaluator := some okEval, workflow_initialized := true } 1 "T"
        = some (fallback_statement "T") :=
  c1_gen_error_aborts_loop_caught errGen okEval improveThenGood "T"
    (.providerError "network failure") 0 2 rfl

/-- C2 (counterexample): for the valid one-character topic `"X"`, a
generator that returns the empty string and an evaluator that grades
`good` make the run succeed in one iteration and `generate_pr_statement`
return the empty string — refuting "never returns an empty string on
success". -/
theorem c2_counterexample :
    "X".length = 1
    ∧ runWorkflow (some emptyGen) (some okEval) 1 0 0 (initialState "X")
        = some (.ok ({ pr_statement := "", topic := "X", grade := "good", feedback := "" }, 1, 1))
    ∧ generate_pr_statement
        { llm := some emptyGen, evaluator := some okEval, workflow_initialized := true } 1 "X"
        = some "" := by
  refine ⟨rfl, rfl, rfl⟩

/-- C2 (amended): whenever the workflow run completes,
`generate_pr_statement` returns a string and never raises: the final
generated statement verbatim when the evaluator accepted (possibly the
empty string), or the non-empty fallback text on any provider or
configuration failure. -/
theorem c2_runLoop_outcomes (llm : LLM) (ev : EvalHandle) (fuel : Nat) (topic : String) :
    (∀ fin g e, runWorkflow (some llm) (some ev) fuel 0 0 (initialState topic)
          = some (.ok (fin, g, e)) →
        generate_pr_statement
          { llm := some llm, evaluator := some ev, workflow_initialized := true } fuel topic
          = some fin.pr_statement)
    ∧ (∀ err, runWorkflow (some llm) (some ev) fuel 0 0 (initialState topic)
          = some (.error err) →
        generate_pr_statement
          { llm := some llm, evaluator := some ev, workflow_initialized := true } fuel topic
          = some (fallback_statement topic))
    ∧ fallback_statement topic ≠ "" := by
  refine ⟨?_, ?_, fallback_statement_ne_empty topic⟩
  · intro fin g e h
    simp [generate_pr_statement, h]
  · intro err h
    simp [generate_pr_statement, h]

/-- C2 (witness): the amended theorem at the empty-output generator. -/
theorem c2_witness :
    generate_pr_statement
        { llm := some emptyGen, evaluator := some okEval, workflow_initialized := true } 1 "X"
        = some ({ pr_statement := "", topic := "X", grade := "good", feedback := "" } : State).pr_statement :=
  (c2_runLoop_outcomes emptyGen okEval 1 "X").1
    { pr_statement := "", topic := "X", grade := "good", feedback := "" } 1 1 rfl

/-- C3: if the evaluator grades `good` on the first call, the run ends
after exactly one generation call and one evaluation call, and
`generate_pr_statement` returns the first generation's output
verbatim. -/
theorem c3_first_pass_accept (llm : LLM) (ev : EvalHandle) (topic content fb : String) (f : Nat)
    (hgen : llm 0 (mkGenPrompt topic) = .ok content)
    (heval : ev 0 (mkEvalPrompt content) = .ok { grade := "good", feedback := fb }) :
    runWorkflow (some llm) (some ev) (f + 1) 0 0 (initialState topic)
        = some (.ok ({ pr_statement := content, topic := topic, grade := "good", feedback := fb }, 1, 1))
    ∧ generate_pr_statement
        { llm := some llm, evaluator := some ev, workflow_initialized := true } (f + 1) topic
        = some content := by
  have h1 : runWorkflow (some llm) (some ev) (f + 1) 0 0 (initialState topic)
      = some (.ok ({ pr_statement := content, topic := topic, grade := "good", feedback := fb }, 1, 1)) := by
    simp [runWorkflow, generate_pr_statement_node, evaluate_pr_statement_node,
      fullGenPrompt, initialState, applyUpdate, route_statement, hgen, heval]
  refine ⟨h1, ?_⟩
  simp [generate_pr_statement, h1]

/-- C3 (witness): the spec's concrete scenario — topic
`"AI-powered chatbot launch"`, generator output `"Statement A"`,
evaluator verdict `good` with empty feedback. -/
theorem c3_witness :
    runWorkflow (some okGen) (some okEval) 1 0 0 (initialState "AI-powered chatbot launch")
        = some (.ok ({ pr_statement := "Statement A", topic := "AI-powered chatbot launch",
                       grade := "good", feedback := "" }, 1, 1))
    ∧ generate_pr_statement
        { llm := some okGen, evaluator := some okEval, workflow_initialized := true } 1
        "AI-powered chatbot launch"
        = some "Statement A" :=
  c3_first_pass_accept okGen okEval "AI-powered chatbot launch" "Statement A" "" 0 rfl rfl

/-- C4: if the evaluator asks for one improvement (with non-empty
feedback) and then accepts, the run ends after exactly two generation
calls and two evaluation calls; the second generation prompt is the base
prompt with the first evaluation's feedback appended, so it contains
that feedback text. -/
theorem c4_second_pass_accept (llm : LLM) (ev : EvalHandle)
    (topic c1 c2 fb1 fb2 : String) (f : Nat)
    (hg1 : llm 0 (mkGenPrompt topic) = .ok c1)
    (he1 : ev 0 (mkEvalPrompt c1) = .ok { grade := "needs improvement", feedback := fb1 })
    (hfb : fb1 ≠ "")
    (hg2 : llm 1 (mkGenPrompt topic ++ " Also take provided feedback into account: " ++ fb1)
        = .ok c2)
    (he2 : ev 1 (mkEvalPrompt c2) = .ok { grade := "good", feedback := fb2 }) :
    runWorkflow (some llm) (some ev) (f + 2) 0 0 (initialState topic)
        = some (.ok ({ pr_statement := c2, topic := topic, grade := "good", feedback := fb2 }, 2, 2))
    ∧ (∃ pre post,
        mkGenPrompt topic ++ " Also take provided feedback into account: " ++ fb1
          = pre ++ fb1 ++ post)
    ∧ generate_pr_statement
        { llm := some llm, evaluator := some ev, workflow_initialized := true } (f + 2) topic
        = some c2 := by
  have h1 : runWorkflow (some llm) (some ev) (f + 2) 0 0 (initialState topic)
      = some (.ok ({ pr_statement := c2, topic := topic, grade := "good", feedback := fb2 }, 2, 2)) := by
    show runWorkflow (some llm) (some ev) (f + 1 + 1) 0 0 (initialState topic) = _
    simp [runWorkflow, generate_pr_statement_node, evaluate_pr_statement_node,
      fullGenPrompt, initialState, applyUpdate, route_statement, hg1, he1, hfb, hg2, he2]
  refine ⟨h1, ⟨mkGenPrompt topic ++ " Also take provided feedback into account: ", "", ?_⟩, ?_⟩
  · simp
  · simp [generate_pr_statement, h1]

/-- C4 (witness): topic `"X"`, first draft `"Draft"`, feedback
`"add benefits"`, second draft `"Final"` accepted. -/
theorem c4_witness :
    runWorkflow (some (fun n _ => if n = 0 then .ok "Draft" else .ok "Final"))
        (some improveThenGood) 2 0 0 (initialState "X")
        = some (.ok ({ pr_statement := "Final", topic := "X", grade := "good", feedback := "" }, 2, 2))
    ∧ (∃ pre post,
        mkGenPrompt "X" ++ " Also take provided feedback into account: " ++ "add benefits"
          = pre ++ "add benefits" ++ post)
    ∧ generate_pr_statement
        { llm := some (fun n _ => if n = 0 then .ok "Draft" else .ok "Final"),
          evaluator := some improveThenGood, workflow_initialized := true } 2 "X"
        = some "Final" :=
  c4_second_pass_accept (fun n _ => if n = 0 then .ok "Draft" else .ok "Final")
    improveThenGood "X" "Draft" "Final" "add benefits" "" 0 rfl rfl (by decide) rfl rfl

/-- C5: when the raw structured output of an evaluation carries a grade
outside the `Feedback` schema's two literals, the validated evaluator
call raises a provider error, the workflow run aborts with it in the
same iteration, and — the result being fixed for every remaining fuel —
no further iteration is performed. -/
theorem c5_invalid_grade_aborts (llm : LLM) (raw : EvalHandle) (st : State)
    (f gc ec : Nat) (content : String) (fb : Feedback)
    (hg : llm gc (fullGenPrompt st) = .ok content)
    (hraw : raw ec (mkEvalPrompt content) = .ok fb)
    (hbad : validGrade fb.grade = false) :
    runWorkflow (some llm) (some (with_structured_output raw)) (f + 1) gc ec st
      = some (.error (.providerError "structured output does not conform to Feedback schema")) := by
  simp [runWorkflow, generate_pr_statement_node, evaluate_pr_statement_node,
    with_structured_output, applyUpdate, hg, hraw, hbad]

/-- C5 (witness): a raw evaluator answering grade `"excellent"` aborts
the run with the schema-violation provider error. -/
theorem c5_witness :
    runWorkflow (some okGen) (some (with_structured_output badGradeRaw)) 1 0 0 (initialState "T")
      = some (.error (.providerError "structured output does not conform to Feedback schema")) :=
  c5_invalid_grade_aborts okGen badGradeRaw (initialState "T") 0 0 0 "Statement A"
    { grade := "excellent", feedback := "nice" } rfl rfl (by decide)

/-- C6 (counterexample): with the workflow not initialized,
`generate_pr_statement` returns the fallback string — it does not raise
a configuration error to its caller, contradicting the claim. -/
theorem c6_counterexample :
    generate_pr_statement { llm := none, evaluator := none, workflow_initialized := false } 1 "X"
        = some (fallback_statement "X")
    ∧ fallback_statement "X" ≠ "" := by
  exact ⟨rfl, by decide⟩

/-- C6 (amended): calling `generate_pr_statement` with the workflow not
initialized raises RuntimeError inside its own `try`, which its
`except Exception` handler catches: for every handle configuration,
fuel and topic it returns the deterministic fallback string containing
the topic, never a generated result and never a raised error. -/
theorem c6_uninitialized_fallback (llm? : Option LLM) (ev? : Option EvalHandle)
    (fuel : Nat) (topic : String) :
    generate_pr_statement { llm := llm?, evaluator := ev?, workflow_initialized := false } fuel topic
        = some (fallback_statement topic)
    ∧ ∃ pre post, fallback_statement topic = pre ++ topic ++ post := by
  refine ⟨rfl,
    "FOR IMMEDIATE RELEASE\n\n        [Company Name] Announces Exciting Development in ",
    "\n        ...", rfl⟩

/-- C7: a missing or empty `GROQ_API_KEY` makes `initialize_llm` raise
the configuration error, `lifespan` startup re-raises it, and the
process never reaches the serving phase — the failure happens before
any request is served. -/
theorem c7_missing_credential_fails_startup (key? : Option String)
    (h : key? = none ∨ key? = some "") :
    lifespan_startup key?
        = .error (.configurationError "GROQ_API_KEY not found in environment variables")
    ∧ serves_requests key? = false := by
  rcases h with h | h <;> subst h <;> exact ⟨rfl, rfl⟩

/-- C7 (witness): the unset-credential case. -/
theorem c7_witness :
    lifespan_startup none
        = .error (.configurationError "GROQ_API_KEY not found in environment variables")
    ∧ serves_requests none = false :=
  c7_missing_credential_fails_startup none (Or.inl rfl)

/-- C8: an evaluation overwrites the stored feedback with exactly the
decision's feedback — not a merge with the previous value — and the
next generation prompt is built from the topic and that latest feedback
alone: the previously stored feedback does not occur in it. -/
theorem c8_feedback_latest_only (ev : EvalHandle) (n : Nat) (st : State) (d : Feedback)
    (hev : ev n (mkEvalPrompt st.pr_statement) = .ok d) :
    evaluate_pr_statement_node (some ev) n st
        = .ok { grade := some d.grade, feedback := some d.feedback }
    ∧ (applyUpdate st { grade := some d.grade, feedback := some d.feedback }).feedback = d.feedback
    ∧ fullGenPrompt (applyUpdate st { grade := some d.grade, feedback := some d.feedback })
        = (if d.feedback = "" then mkGenPrompt st.topic
           else mkGenPrompt st.topic ++ " Also take provided feedback into account: " ++ d.feedback) := by
  refine ⟨?_, rfl, rfl⟩
  simp [evaluate_pr_statement_node, hev]

/-- C8 (witness): a state already holding feedback `"old"` evaluated to
fresh feedback `"new"`. -/
theorem c8_witness :
    evaluate_pr_statement_node (some overwriteEval) 3
        { pr_statement := "S", topic := "T", grade := "needs improvement", feedback := "old" }
        = .ok { grade := some "needs improvement", feedback := some "new" }
    ∧ (applyUpdate
        { pr_statement := "S", topic := "T", grade := "needs improvement", feedback := "old" }
        { grade := some "needs improvement", feedback := some "new" }).feedback = "new"
    ∧ fullGenPrompt (applyUpdate
        { pr_statement := "S", topic := "T", grade := "needs improvement", feedback := "old" }
        { grade := some "needs improvement", feedback := some "new" })
        = (if ("new" : String) = "" then mkGenPrompt "T"
           else mkGenPrompt "T" ++ " Also take provided feedback into account: " ++ "new") :=
  c8_feedback_latest_only overwriteEval 3
    { pr_statement := "S", topic := "T", grade := "needs improvement", feedback := "old" }
    { grade := "needs improvement", feedback := "new" } rfl

/-- C9: the topic is set once at loop start and never modified: every
accepted run ends with the topic it started from, and neither node's
update dict carries the `topic` key. -/
theorem c9_topic_immutable (llm? : Option LLM) (ev? : Option EvalHandle)
    (fuel gc ec : Nat) (st fin : State) (g e : Nat)
    (hrun : runWorkflow llm? ev? fuel gc ec st = some (.ok (fin, g, e))) :
    fin.topic = st.topic
    ∧ (∀ u, generate_pr_statement_node llm? gc st = .ok u → u.topic = none)
    ∧ (∀ u, evaluate_pr_statement_node ev? ec st = .ok u → u.topic = none) := by
  refine ⟨runWorkflow_topic llm? ev? fuel gc ec st fin g e hrun, ?_, ?_⟩
  · intro u hu
    exact (gen_node_update llm? gc st u hu).1
  · intro u hu
    exact (eval_node_update ev? ec st u hu).1

/-- C9 (witness): a two-iteration run keeps the topic `"T"`. -/
theorem c9_witness :
    ({ pr_statement := "Statement A", topic := "T", grade := "good", feedback := "" } : State).topic
        = (initialState "T").topic :=
  (c9_topic_immutable (some okGen) (some improveThenGood) 2 0 0 (initialState "T")
    { pr_statement := "Statement A", topic := "T", grade := "good", feedback := "" } 2 2 rfl).1

/-- C10: `generate_pr_statement` never propagates a failure to its
caller: whenever the workflow is uninitialized or the workflow run
raises any error, it returns the deterministic fallback string, which
contains the topic. -/
theorem c10_never_propagates (cfg : Config) (fuel : Nat) (topic : String)
    (hfail : cfg.workflow_initialized = false
      ∨ ∃ err, runWorkflow cfg.llm cfg.evaluator fuel 0 0 (initialState topic)
          = some (.error err)) :
    generate_pr_statement cfg fuel topic = some (fallback_statement topic)
    ∧ ∃ pre post, fallback_statement topic = pre ++ topic ++ post := by
  refine ⟨?_,
    "FOR IMMEDIATE RELEASE\n\n        [Company Name] Announces Exciting Development in ",
    "\n        ...", rfl⟩
  rcases hfail with h | ⟨err, herr⟩
  · simp [generate_pr_statement, h]
  · by_cases hw : cfg.workflow_initialized <;>
      simp [generate_pr_statement, hw, herr]

/-- C10 (witness): the failing-provider configuration. -/
theorem c10_witness :
    generate_pr_statement
        { llm := some errGen, evaluator := some improveThenGood, workflow_initialized := true } 2 "T"
        = some (fallback_statement "T")
    ∧ ∃ pre post, fallback_statement "T" = pre ++ "T" ++ post :=
  c10_never_propagates
    { llm := some errGen, evaluator := some improveThenGood, workflow_initialized := true } 2 "T"
    (Or.inr ⟨.providerError "network failure", rfl⟩)
